import Mathlib

/-!
Verification of the corepack serialization core: the `Generic` self-describing
value and its typed-serialization adapter (`src/generic.rs`), and the
deferred-length `MapSerializer` (`src/map_serializer.rs`).

Conventions of the shallow embedding:
* Byte sinks (`FnMut(&[u8]) -> Result<()>`) are modelled as an accumulated
  `List Nat` of bytes; a call `(self.output)(bs)` becomes appending `bs`.
  A computation that returns `Except.error` before invoking the sink has,
  by construction, written nothing.
* Rust `usize`/`u64` become `Nat`, `i64`/`i8`/`isize` become `Int`; range
  constraints that the Rust types enforce statically appear as explicit
  well-formedness hypotheses.
* `f32`/`f64` payloads are carried as opaque bit patterns (`Nat`): the code
  under verification only moves them around, never inspects them.
* A serde `Serialize` value is represented by its effect on the serializer
  state: for the `VecGeneric` builder, a function
  `List Generic → Except Error (List Generic)`; for the byte serializer,
  the byte string its encoding writes.
-/

/-- Error reasons, mirroring `error::Reason` (spec section 7: `TooBig`,
`BadLength`, `InvalidType`, `EndOfStream`, `Other`). -/
inductive Reason where
  | TooBig
  | BadLength
  | InvalidType
  | EndOfStream
  | Other
deriving DecidableEq, Repr

/-- Errors, mirroring `error::Error`: a reason, a message, and an optional
chained cause. Modelled from the spec: `error.rs` is not under `src/`;
spec section 7 fixes the reasons and that `Other` wraps a chained cause. -/
inductive Error where
  | mk (reason : Reason) (msg : String) (cause : Option Error)

/-- `Error::simple(reason)`. -/
def Error.simple (r : Reason) : Error := .mk r "" none

/-- `Error::new(reason, msg)`. -/
def Error.new (r : Reason) (m : String) : Error := .mk r m none

/-- `Error::chain(reason, msg, cause)`. -/
def Error.chain (r : Reason) (m : String) (c : Option Error) : Error := .mk r m c

def Error.reason : Error → Reason
  | .mk r _ _ => r

/-- serde's `Error::invalid_length`. Modelled from the spec: `error.rs` is not
under `src/`; spec sections 4.4 and 7 state that an invalid length maps to
`BadLength`. -/
def Error.invalid_length (_n : Nat) : Error := Error.simple .BadLength

/-- serde's `Error::invalid_type`. Modelled from the spec: `error.rs` is not
under `src/`; spec sections 4.3 and 7 state that a wire shape incompatible
with the requested target maps to `InvalidType`. -/
def Error.invalid_type : Error := Error.simple .InvalidType

/-- serde's `Error::end_of_stream` (spec section 7: `EndOfStream`). -/
def Error.end_of_stream : Error := Error.simple .EndOfStream

/-- serde's `Error::custom` (a wrapped message; spec section 7: `Other`). -/
def Error.custom (m : String) : Error := Error.new .Other m

/-- The `Generic` self-describing value (`generic.rs` lines 14-27).
`F32`/`F64` payloads are opaque bit patterns, `Bin` is a byte list. -/
inductive Generic where
  | nil
  | gfalse
  | gtrue
  | int (i : Int)
  | uint (u : Nat)
  | f32 (bits : Nat)
  | f64 (bits : Nat)
  | bin (b : List Nat)
  | str (s : String)
  | array (items : List Generic)
  | map (entries : List (Generic × Generic))

/-- `Generic::is_str` (`generic.rs` lines 882-888). -/
def Generic.is_str : Generic → Bool
  | .str _ => true
  | _ => false

/-- `Generic::is_map` (`generic.rs` lines 898-904). -/
def Generic.is_map : Generic → Bool
  | .map _ => true
  | _ => false

/-- `Generic::is_int` (`generic.rs` lines 842-848). -/
def Generic.is_int : Generic → Bool
  | .int _ => true
  | _ => false

/-- `Generic::is_uint` (`generic.rs` lines 850-856). -/
def Generic.is_uint : Generic → Bool
  | .uint _ => true
  | _ => false

/-!
## Deferred-length map framer (`src/map_serializer.rs`)

Wire-format constants. Modelled from the spec: `defs.rs` is not under
`src/`; spec section 6 fixes the fixmap shape `1000xxxx` (mask `0x80`,
max count 15), the `map16` ceiling 65535 and the `map32` ceiling
4294967295, each with a single tag byte.
-/

def MAX_FIXMAP : Nat := 15
def FIXMAP_MASK : Nat := 0x80
def MAX_MAP16 : Nat := 65535
def MAP16 : Nat := 0xde
def MAX_MAP32 : Nat := 4294967295
def MAP32 : Nat := 0xdf

/-- Big-endian bytes of `n` truncated to `u16` (`BigEndian::write_u16` after
the `as u16` cast). -/
def be16 (n : Nat) : List Nat :=
  [n % 65536 / 256, n % 256]

/-- Big-endian bytes of `n` truncated to `u32` (`BigEndian::write_u32` after
the `as u32` cast). -/
def be32 (n : Nat) : List Nat :=
  [n % 4294967296 / 16777216, n % 16777216 / 65536, n % 65536 / 256, n % 256]

/-- `MapSerializer` state (`map_serializer.rs` lines 12-17): element counter,
optional known size, internal buffer, and the bytes the real output sink has
received so far. -/
structure MapSerializer where
  count : Nat
  size : Option Nat
  buffer : List Nat
  output : List Nat

/-- `MapSerializer::new` over a fresh sink. -/
def MapSerializer.new : MapSerializer :=
  { count := 0, size := none, buffer := [], output := [] }

/-- Append bytes to the real output sink (one call of the `output` closure). -/
def MapSerializer.write (st : MapSerializer) (bs : List Nat) : MapSerializer :=
  { st with output := st.output ++ bs }

/-- `output_map_header` (`map_serializer.rs` lines 63-77). On the `TooBig`
branch the function returns before the sink closure is ever invoked, so an
`Except.error` result carries no write. -/
def MapSerializer.output_map_header (st : MapSerializer) (size : Nat) :
    Except Error MapSerializer :=
  if size ≤ MAX_FIXMAP then
    .ok (st.write [size % 256 ||| FIXMAP_MASK])
  else if size ≤ MAX_MAP16 then
    .ok (st.write ([MAP16] ++ be16 size))
  else if size ≤ MAX_MAP32 then
    .ok (st.write ([MAP32] ++ be32 size))
  else
    .error (Error.simple .TooBig)

/-- `hint_size` (`map_serializer.rs` lines 29-38). -/
def MapSerializer.hint_size (st : MapSerializer) (size : Option Nat) :
    Except Error MapSerializer :=
  let st := { st with size := size }
  match st.size with
  | some n => st.output_map_header n
  | none => .ok st

/-- `should_serialize_directly` (`map_serializer.rs` lines 95-97). -/
def MapSerializer.should_serialize_directly (st : MapSerializer) : Bool :=
  st.size.isSome

/-- `serialize_element` (`map_serializer.rs` lines 40-50), shared by
`serialize_key` and `serialize_value`. The element being serialized is
represented by the bytes its encoding writes through the nested `Serializer`
(`ser.rs`, an external collaborator per spec section 1): `serialize_directly`
sends them to the real sink, `serialize_into_buffer` appends them to the
internal buffer. -/
def MapSerializer.serialize_element (st : MapSerializer) (bytes : List Nat) :
    Except Error MapSerializer :=
  let st := { st with count := st.count + 1 }
  if st.should_serialize_directly then
    .ok (st.write bytes)
  else
    .ok { st with buffer := st.buffer ++ bytes }

/-- `get_item_count` (`map_serializer.rs` lines 79-85). Note the source
checks `count % 1 != 0`. -/
def MapSerializer.get_item_count (st : MapSerializer) : Except Error Nat :=
  if st.count % 1 ≠ 0 then
    .error (Error.simple .BadLength)
  else
    .ok (st.count / 2)

/-- `check_item_count_matches_size` (`map_serializer.rs` lines 87-93). -/
def MapSerializer.check_item_count_matches_size (st : MapSerializer)
    (size : Nat) : Except Error Unit :=
  if size ≠ st.count then
    .error (Error.simple .BadLength)
  else
    .ok ()

/-- `finish` (`map_serializer.rs` lines 52-61); also `end` of the
`SerializeMap`/`SerializeStruct`/`SerializeStructVariant` impls. Returns the
final state so the sink contents can be observed. -/
def MapSerializer.finish (st : MapSerializer) : Except Error MapSerializer :=
  match st.size with
  | some n => do
      let _ ← st.check_item_count_matches_size (n * 2)
      .ok st
  | none => do
      let count ← st.get_item_count
      let st ← st.output_map_header count
      .ok (st.write st.buffer)

/-- A complete map encoding run: `new`, `hint_size`, one `serialize_element`
per key and per value (each given as its encoded bytes), then `finish`;
yields the bytes the real sink received. -/
def runMapSerializer (hint : Option Nat) (elems : List (List Nat)) :
    Except Error (List Nat) := do
  let st := MapSerializer.new
  let st ← st.hint_size hint
  let st ← elems.foldlM MapSerializer.serialize_element st
  let st ← st.finish
  .ok st.output

/-!
## The `VecGeneric` builder serializer (`generic.rs` lines 511-799)

The builder state is the underlying `Vec<Generic>` (`VecGeneric`), modelled
as `List Generic`; every scalar `serialize_*` pushes one `Generic`. A value
of a serde `Serialize` type is represented by its action on such a buffer:
a function `List Generic → Except Error (List Generic)`.
-/

/-- The action of `value.serialize(&mut buf)` for a value of some serde
`Serialize` type, abstracted as a buffer transformer. -/
def SerAction : Type := List Generic → Except Error (List Generic)

/-- `serialize_bool` (`generic.rs` lines 523-531). -/
def serialize_bool (buf : List Generic) (v : Bool) : Except Error (List Generic) :=
  if v then .ok (buf ++ [.gtrue]) else .ok (buf ++ [.gfalse])

/-- `serialize_i64` (`generic.rs` lines 533-537). -/
def serialize_i64 (buf : List Generic) (v : Int) : Except Error (List Generic) :=
  .ok (buf ++ [.int v])

/-- `serialize_u64` (`generic.rs` lines 555-559). -/
def serialize_u64 (buf : List Generic) (v : Nat) : Except Error (List Generic) :=
  .ok (buf ++ [.uint v])

/-- `serialize_usize` (`generic.rs` lines 561-563): `value as u64`, exact on
64-bit targets; the cast is modelled by truncation mod 2^64. -/
def serialize_usize (buf : List Generic) (v : Nat) : Except Error (List Generic) :=
  serialize_u64 buf (v % 2 ^ 64)

/-- `serialize_i8` (`generic.rs` lines 543-545): `value as i64` is exact. -/
def serialize_i8 (buf : List Generic) (v : Int) : Except Error (List Generic) :=
  serialize_i64 buf v

/-- `serialize_isize` (`generic.rs` lines 539-541): `value as i64`, exact on
64-bit targets. -/
def serialize_isize (buf : List Generic) (v : Int) : Except Error (List Generic) :=
  serialize_i64 buf v

/-- `serialize_f32` (`generic.rs` lines 577-581); the payload is an opaque
bit pattern. -/
def serialize_f32 (buf : List Generic) (bits : Nat) : Except Error (List Generic) :=
  .ok (buf ++ [.f32 bits])

/-- `serialize_f64` (`generic.rs` lines 583-587). -/
def serialize_f64 (buf : List Generic) (bits : Nat) : Except Error (List Generic) :=
  .ok (buf ++ [.f64 bits])

/-- `serialize_str` (`generic.rs` lines 589-593). -/
def serialize_str (buf : List Generic) (v : String) : Except Error (List Generic) :=
  .ok (buf ++ [.str v])

/-- `serialize_bytes` (`generic.rs` lines 600-604). -/
def serialize_bytes (buf : List Generic) (v : List Nat) : Except Error (List Generic) :=
  .ok (buf ++ [.bin v])

/-- `serialize_unit` (`generic.rs` lines 606-610). -/
def serialize_unit (buf : List Generic) : Except Error (List Generic) :=
  .ok (buf ++ [.nil])

/-- `serialize_unit_variant` (`generic.rs` lines 616-618): pushes the variant
name as a `Str`. -/
def serialize_unit_variant (buf : List Generic) (_name : String) (_idx : Nat)
    (variant : String) : Except Error (List Generic) :=
  serialize_str buf variant

/-- `serialize_tuple_variant` (`generic.rs` lines 706-708): the state is the
variant name paired with a fresh element vector (capacity hints are
irrelevant to the contents). -/
def serialize_tuple_variant (_name : String) (_idx : Nat) (variant : String)
    (_len : Nat) : String × List Generic :=
  (variant, [])

/-- `serialize_tuple_variant_elt` (`generic.rs` lines 710-713): the element
serializes itself into the state's vector. -/
def serialize_tuple_variant_elt (state : String × List Generic)
    (ser : SerAction) : Except Error (String × List Generic) := do
  let l ← ser state.2
  .ok (state.1, l)

/-- `serialize_tuple_variant_end` (`generic.rs` lines 715-722): pushes a
single-entry map from the variant name to the array of elements. -/
def serialize_tuple_variant_end (buf : List Generic)
    (state : String × List Generic) : Except Error (List Generic) :=
  .ok (buf ++ [.map [(.str state.1, .array state.2)]])

/-- `serialize_newtype_variant` (`generic.rs` lines 627-648): drives the
tuple-variant path for one element, then checks the payload produced exactly
one item, and pushes a single-entry map from the variant name to that item
(the `pop().unwrap()` is guarded by the length check). -/
def serialize_newtype_variant (buf : List Generic) (name : String) (idx : Nat)
    (variant : String) (ser : SerAction) : Except Error (List Generic) := do
  let st := serialize_tuple_variant name idx variant 1
  let st ← serialize_tuple_variant_elt st ser
  match st.2 with
  | [v] => .ok (buf ++ [.map [(.str st.1, v)]])
  | l => .error (Error.new .BadLength
      ("Newtype variant serialized into " ++ toString l.length ++
       " items instead of exactly one"))

/-- `serialize_struct_variant` (`generic.rs` lines 771-776): variant name
plus a fresh `MapGeneric` (parallel key and value vectors). -/
def serialize_struct_variant (_name : String) (_idx : Nat) (variant : String)
    (_len : Nat) : String × (List Generic × List Generic) :=
  (variant, ([], []))

/-- `serialize_struct_variant_elt` (`generic.rs` lines 778-782):
`serialize_map_key` pushes the field name as a `Str` into the key vector,
then the value serializes itself into the value vector. -/
def serialize_struct_variant_elt (state : String × (List Generic × List Generic))
    (key : String) (ser : SerAction) :
    Except Error (String × (List Generic × List Generic)) := do
  let ks ← serialize_str state.2.1 key
  let vs ← ser state.2.2
  .ok (state.1, (ks, vs))

/-- `serialize_struct_variant_end` (`generic.rs` lines 784-798): checks the
key and value vectors have equal length, then pushes a single-entry map from
the variant name to the zipped field map. -/
def serialize_struct_variant_end (buf : List Generic)
    (state : String × (List Generic × List Generic)) :
    Except Error (List Generic) :=
  if state.2.1.length ≠ state.2.2.length then
    .error (Error.custom "Number of keys and number of values did not match")
  else
    .ok (buf ++ [.map [(.str state.1, .map (state.2.1.zip state.2.2))]])

/-- `Generic::from_value` (`generic.rs` lines 802-816), parametric over the
serialized value's action: run it on an empty builder, pop the last item,
and require the rest of the builder to be empty. -/
def Generic.from_value (ser : SerAction) : Except Error Generic := do
  let buf ← ser []
  match buf.getLast? with
  | some generic =>
      if buf.dropLast.isEmpty then
        .ok generic
      else
        .error (Error.new .BadLength "Value serialized into more than one item")
  | none =>
      .error (Error.new .BadLength "Value serialized into no items")

/-!
## `impl Serialize for Generic` (`generic.rs` lines 292-323)

When the serializer target is the `VecGeneric` builder, each scalar arm
pushes the matching variant; the `Array` arm opens a nested sequence state,
serializes each element into it, and `serialize_seq_end` pushes the
collected array; the `Map` arm serializes each key into the state's key
vector and each value into its value vector, and `serialize_map_end` checks
the two lengths and pushes the zipped map.
-/

mutual

/-- The action of `g.serialize(&mut buf)` against the `VecGeneric` builder. -/
def GSer (g : Generic) (buf : List Generic) : Except Error (List Generic) :=
  match g with
  | .nil => serialize_unit buf
  | .gfalse => serialize_bool buf false
  | .gtrue => serialize_bool buf true
  | .int i => serialize_i64 buf i
  | .uint u => serialize_u64 buf u
  | .f32 bits => serialize_f32 buf bits
  | .f64 bits => serialize_f64 buf bits
  | .bin b => serialize_bytes buf b
  | .str s => serialize_str buf s
  | .array items => do
      -- serialize_seq(Some(len)) opens a fresh vector; each
      -- serialize_seq_elt recurses; serialize_seq_end pushes the array
      let state ← GSerSeq items []
      .ok (buf ++ [.array state])
  | .map entries => do
      -- serialize_map(Some(len)) opens fresh key/value vectors; each pair
      -- goes through serialize_map_key / serialize_map_value
      let state ← GSerEntries entries ([], [])
      -- serialize_map_end (generic.rs lines 746-755)
      if state.1.length ≠ state.2.length then
        .error (Error.custom "Number of keys and number of values did not match")
      else
        .ok (buf ++ [.map (state.1.zip state.2)])
termination_by sizeOf g

/-- The loop `for item in a { serialize_seq_elt(state, item) }`. -/
def GSerSeq (items : List Generic) (state : List Generic) :
    Except Error (List Generic) :=
  match items with
  | [] => .ok state
  | g :: rest => do
      let state ← GSer g state
      GSerSeq rest state
termination_by sizeOf items

/-- The loop `for (key, value) in m { serialize_map_key; serialize_map_value }`
over the `MapGeneric` state's key and value vectors. -/
def GSerEntries (entries : List (Generic × Generic))
    (state : List Generic × List Generic) :
    Except Error (List Generic × List Generic) :=
  match entries with
  | [] => .ok state
  | (k, v) :: rest => do
      let ks ← GSer k state.1
      let vs ← GSer v state.2
      GSerEntries rest (ks, vs)
termination_by sizeOf entries

end

/-- `Generic::from_value` applied to a `Generic` value itself (the identity
round-trip entry point). -/
def fromValueGeneric (g : Generic) : Except Error Generic :=
  Generic.from_value (GSer g)

/-!
## The variant decode adapter (`generic.rs` lines 51-125)

`VariantVisitor` holds the parent `Generic`. Each `visit_*` method is
parametric over the typed deserialization it invokes (`V::deserialize` /
`T::deserialize` / `m[0].1.deserialize(visitor)`), abstracted as a
function `Generic → Except Error α`.
-/

/-- Wrap a failed inner deserialization the way `visit_variant` does:
`Error::chain(Other, "Failed to deserialize variant", cause)`. -/
def chainVariantErr {α : Type} (r : Except Error α) : Except Error α :=
  match r with
  | .ok v => .ok v
  | .error e => .error (Error.chain .Other "Failed to deserialize variant" (some e))

/-- `VariantVisitor::visit_variant` (`generic.rs` lines 54-81): a `Str`
parent is the discriminant itself; otherwise the parent must be a
single-entry `Map` whose key is the discriminant; a map of any other length
is `invalid_length`, any other variant is `invalid_type(Type::Enum)`. -/
def visit_variant {V : Type} (parent : Generic) (dV : Generic → Except Error V) :
    Except Error V :=
  if parent.is_str then
    chainVariantErr (dV parent)
  else
    match parent with
    | .map m =>
        match m with
        | [entry] => chainVariantErr (dV entry.1)
        | _ => .error (Error.invalid_length m.length)
    | _ => .error Error.invalid_type

/-- `VariantVisitor::visit_newtype` (`generic.rs` lines 83-99): the parent
must be a single-entry map; the payload deserializes from the entry's value,
failures chained as "Failed to deserialize newtype". -/
def visit_newtype {T : Type} (parent : Generic) (dT : Generic → Except Error T) :
    Except Error T :=
  match parent with
  | .map m =>
      match m with
      | [entry] =>
          match dT entry.2 with
          | .ok v => .ok v
          | .error e =>
              .error (Error.chain .Other "Failed to deserialize newtype" (some e))
      | _ => .error (Error.invalid_length m.length)
  | _ => .error Error.invalid_type

/-- `VariantVisitor::visit_tuple` (`generic.rs` lines 101-114): the parent
must be a single-entry map; the entry's value offers itself to the payload
visitor (`m[0].1.deserialize(visitor)`). -/
def visit_tuple {α : Type} (parent : Generic) (_len : Nat)
    (vis : Generic → Except Error α) : Except Error α :=
  match parent with
  | .map m =>
      match m with
      | [entry] => vis entry.2
      | _ => .error (Error.invalid_length m.length)
  | _ => .error Error.invalid_type

/-- `VariantVisitor::visit_struct` (`generic.rs` lines 116-120): forwards to
`visit_tuple` with the number of fields. -/
def visit_struct {α : Type} (parent : Generic) (fields : List String)
    (vis : Generic → Except Error α) : Except Error α :=
  visit_tuple parent fields.length vis

/-- `VariantVisitor::visit_unit` (`generic.rs` lines 122-124). -/
def visit_unit (_parent : Generic) : Except Error Unit :=
  .ok ()

/-!
## The round-trip test type `T`

Modelled from the spec: the test type `T` lives in `src/test.rs`, which is
not under `src/`; its shape is given by the commented declaration in
`generic.rs` lines 912-918 (`enum T { A(usize), B, C(i8, i8), D { a: isize } }`)
and by spec section 8's four round-trip cases; its `Serialize`/`Deserialize`
impls are the standard serde-derived ones (an external collaborator per spec
section 1), written out against the embedded serializer and visitor
operations.
-/

/-- `enum T { A(usize), B, C(i8, i8), D { a: isize } }`; `usize` as `Nat`,
`i8`/`isize` as `Int` with the range constraints in `T.wf`. -/
inductive T where
  | A (x : Nat)
  | B
  | C (a : Int) (b : Int)
  | D (a : Int)
deriving DecidableEq

/-- The range constraints the Rust field types carry statically. -/
def T.wf : T → Prop
  | .A x => x < 2 ^ 64
  | .B => True
  | .C a b => (-128 ≤ a ∧ a ≤ 127) ∧ (-128 ≤ b ∧ b ≤ 127)
  | .D a => -(2 ^ 63) ≤ a ∧ a < 2 ^ 63

instance (t : T) : Decidable (T.wf t) :=
  match t with
  | .A x => inferInstanceAs (Decidable (x < 2 ^ 64))
  | .B => inferInstanceAs (Decidable True)
  | .C a b =>
      inferInstanceAs (Decidable ((-128 ≤ a ∧ a ≤ 127) ∧ (-128 ≤ b ∧ b ≤ 127)))
  | .D a => inferInstanceAs (Decidable (-(2 ^ 63) ≤ a ∧ a < 2 ^ 63))

/-- The derived `Serialize` impl of `T` against the `VecGeneric` builder:
each variant kind goes through the corresponding `serialize_*_variant`
path of `generic.rs`. -/
def TSer (t : T) (buf : List Generic) : Except Error (List Generic) :=
  match t with
  | .A x => serialize_newtype_variant buf "T" 0 "A" (fun b => serialize_usize b x)
  | .B => serialize_unit_variant buf "T" 1 "B"
  | .C a b => do
      let st := serialize_tuple_variant "T" 2 "C" 2
      let st ← serialize_tuple_variant_elt st (fun bf => serialize_i8 bf a)
      let st ← serialize_tuple_variant_elt st (fun bf => serialize_i8 bf b)
      serialize_tuple_variant_end buf st
  | .D a => do
      let st := serialize_struct_variant "T" 3 "D" 1
      let st ← serialize_struct_variant_elt st "a" (fun bf => serialize_isize bf a)
      serialize_struct_variant_end buf st

/-- `Generic::from_value(&t)`: the encode direction of the round trip. -/
def TFromValue (t : T) : Except Error Generic :=
  Generic.from_value (TSer t)

/-- The derived field discriminant of `T` (`__Field` in serde's derive). -/
inductive TField where
  | fA
  | fB
  | fC
  | fD

/-- Discriminant deserialization: the derived `__Field` visitor accepts a
string name or a numeric index; `Generic`'s `Deserializer` dispatches a
`Str` to `visit_str` and a `UInt` to `visit_u64`. -/
def deserializeTField (g : Generic) : Except Error TField :=
  match g with
  | .str s =>
      if s = "A" then .ok .fA
      else if s = "B" then .ok .fB
      else if s = "C" then .ok .fC
      else if s = "D" then .ok .fD
      else .error (Error.custom "unknown variant")
  | .uint u =>
      if u = 0 then .ok .fA
      else if u = 1 then .ok .fB
      else if u = 2 then .ok .fC
      else if u = 3 then .ok .fD
      else .error (Error.custom "unknown variant")
  | _ => .error Error.invalid_type

/-- `usize::deserialize` from a `Generic` source: `deserialize_usize`
forwards to `deserialize_u64`, which dispatches on the value; a `UInt`
arrives at `visit_u64` (exact on 64-bit), an `Int` at `visit_i64` (must be
non-negative), anything else is a type error. -/
def deserializeUsize (g : Generic) : Except Error Nat :=
  match g with
  | .uint u => .ok u
  | .int i => if 0 ≤ i then .ok i.toNat else .error Error.invalid_type
  | _ => .error Error.invalid_type

/-- `i8::deserialize` from a `Generic` source: an `Int` arrives at
`visit_i64` with a range check, a `UInt` at `visit_u64` likewise. -/
def deserializeI8 (g : Generic) : Except Error Int :=
  match g with
  | .int i =>
      if -128 ≤ i ∧ i ≤ 127 then .ok i else .error Error.invalid_type
  | .uint u =>
      if u ≤ 127 then .ok (Int.ofNat u) else .error Error.invalid_type
  | _ => .error Error.invalid_type

/-- `isize::deserialize` from a `Generic` source (64-bit `isize`). -/
def deserializeIsize (g : Generic) : Except Error Int :=
  match g with
  | .int i => .ok i
  | .uint u =>
      if (u : Int) < 2 ^ 63 then .ok (Int.ofNat u) else .error Error.invalid_type
  | _ => .error Error.invalid_type

/-- The derived visitor for `C`'s payload: `Generic`'s `deserialize`
dispatches an `Array` to `visit_seq` with a `SeqVisitor`; the tuple visitor
pulls two `i8` elements and then requires the iterator exhausted
(`SeqVisitor::end`, `generic.rs` lines 138-144). -/
def deserializeCPayload (g : Generic) : Except Error (Int × Int) :=
  match g with
  | .array items =>
      match items with
      | g0 :: rest0 => do
          let a ← deserializeI8 g0
          match rest0 with
          | g1 :: rest1 => do
              let b ← deserializeI8 g1
              match rest1 with
              | [] => .ok (a, b)
              | l => .error (Error.invalid_length l.length)
          | [] => .error Error.end_of_stream
      | [] => .error Error.end_of_stream
  | _ => .error Error.invalid_type

/-- The derived visitor for `D`'s payload: `Generic`'s `deserialize`
dispatches a `Map` to `visit_map` with a `MapVisitor` (`generic.rs` lines
151-196); the struct visitor reads field keys, stores the `a` value, and
requires `a` present at the end. -/
def deserializeDPayload (g : Generic) : Except Error Int :=
  match g with
  | .map entries => readDFields entries none
  | _ => Except.error Error.invalid_type
where
  readDFields : List (Generic × Generic) → Option Int → Except Error Int
    | [], none => .error (Error.custom "missing field a")
    | [], some a => .ok a
    | (k, v) :: rest, _acc =>
        match k with
        | .str s =>
            if s = "a" then do
              let a ← deserializeIsize v
              readDFields rest (some a)
            else .error (Error.custom "unknown field")
        | _ => .error Error.invalid_type

/-- The derived `Deserialize` impl of `T` from a `Generic` source:
`deserialize_enum` (`generic.rs` lines 498-503) hands a `VariantVisitor`
over the source to the derived `EnumVisitor`, which reads the discriminant
with `visit_variant` and then unpacks the payload with
`visit_unit`/`visit_newtype`/`visit_tuple`/`visit_struct`. -/
def TDe (g : Generic) : Except Error T := do
  let f ← visit_variant g deserializeTField
  match f with
  | .fA => do
      let x ← visit_newtype g deserializeUsize
      .ok (T.A x)
  | .fB => do
      let _ ← visit_unit g
      .ok T.B
  | .fC => do
      let p ← visit_tuple g 2 deserializeCPayload
      .ok (T.C p.1 p.2)
  | .fD => do
      let a ← visit_struct g ["a"] deserializeDPayload
      .ok (T.D a)

/-- The full round trip of spec section 8: encode with
`Generic::from_value`, decode with `T::deserialize`. -/
def TRoundTrip (t : T) : Except Error T :=
  TFromValue t >>= TDe

/-!
## Helper lemmas for the map framer
-/

/-- For a count within the map32 ceiling the header is some fixed byte
string, written identically from any state. -/
theorem output_map_header_ok (n : Nat) (h : n ≤ MAX_MAP32) :
    ∃ hdr : List Nat, hdr ≠ [] ∧ ∀ st : MapSerializer,
      st.output_map_header n = .ok (st.write hdr) := by
  unfold MapSerializer.output_map_header
  by_cases h1 : n ≤ MAX_FIXMAP
  · exact ⟨[n % 256 ||| FIXMAP_MASK], by simp, fun st => by simp [h1]⟩
  · by_cases h2 : n ≤ MAX_MAP16
    · exact ⟨[MAP16] ++ be16 n, by simp, fun st => by simp [h1, h2]⟩
    · exact ⟨[MAP32] ++ be32 n, by simp, fun st => by simp [h1, h2, h]⟩

/-- Binding an `ok` result just applies the continuation. -/
theorem ok_bind {ε α β : Type} (a : α) (f : α → Except ε β) :
    (Except.ok (ε := ε) a >>= f) = f a := rfl

/-- Binding an `error` result short-circuits. -/
theorem error_bind {ε α β : Type} (e : ε) (f : α → Except ε β) :
    (Except.error (α := α) e >>= f) = .error e := rfl

/-- `finish` in known-size mode is the item-count check followed by `Ok(())`. -/
theorem finish_some (st : MapSerializer) (n : Nat) (hsz : st.size = some n) :
    st.finish =
      (st.check_item_count_matches_size (n * 2) >>= fun _ => .ok st) := by
  rw [MapSerializer.finish, hsz]

/-- `finish` in unknown-size mode computes the count, emits the header, and
flushes the buffer. -/
theorem finish_none (st : MapSerializer) (hsz : st.size = none) :
    st.finish =
      (st.get_item_count >>= fun count =>
        st.output_map_header count >>= fun st => .ok (st.write st.buffer)) := by
  rw [MapSerializer.finish, hsz]

/-- Direct-streaming fold: with a size hint set, every element's bytes go
straight to the sink and the counter advances once per element. -/
theorem foldlM_serialize_direct (elems : List (List Nat)) (st : MapSerializer)
    (h : st.size.isSome) :
    elems.foldlM MapSerializer.serialize_element st =
      .ok { st with count := st.count + elems.length,
                    output := st.output ++ elems.flatten } := by
  induction elems generalizing st with
  | nil => simp only [List.foldlM_nil, List.length_nil, List.flatten_nil,
      List.append_nil, Nat.add_zero]; rfl
  | cons e rest ih =>
      have hse : st.serialize_element e =
          .ok { st with count := st.count + 1, output := st.output ++ e } := by
        simp [MapSerializer.serialize_element, MapSerializer.should_serialize_directly,
              h, MapSerializer.write]
      rw [List.foldlM_cons, hse, ok_bind, ih _ (by simpa using h)]
      have hc : st.count + 1 + rest.length = st.count + (e :: rest).length := by
        simp; omega
      simp only [List.flatten_cons, ← List.append_assoc, hc]

/-- Buffering fold: with no size hint, every element's bytes append to the
internal buffer, the sink untouched. -/
theorem foldlM_serialize_buffered (elems : List (List Nat)) (st : MapSerializer)
    (h : st.size = none) :
    elems.foldlM MapSerializer.serialize_element st =
      .ok { st with count := st.count + elems.length,
                    buffer := st.buffer ++ elems.flatten } := by
  induction elems generalizing st with
  | nil => simp only [List.foldlM_nil, List.length_nil, List.flatten_nil,
      List.append_nil, Nat.add_zero]; rfl
  | cons e rest ih =>
      have hse : st.serialize_element e =
          .ok { st with count := st.count + 1, buffer := st.buffer ++ e } := by
        simp [MapSerializer.serialize_element, MapSerializer.should_serialize_directly,
              h, MapSerializer.write]
      rw [List.foldlM_cons, hse, ok_bind, ih _ (by simpa using h)]
      have hc : st.count + 1 + rest.length = st.count + (e :: rest).length := by
        simp; omega
      simp only [List.flatten_cons, ← List.append_assoc, hc]

/-- The per-pair element list: keys and values interleaved in order. -/
def pairElems : List (List Nat × List Nat) → List (List Nat)
  | [] => []
  | (k, v) :: rest => k :: v :: pairElems rest

theorem pairElems_length (pairs : List (List Nat × List Nat)) :
    (pairElems pairs).length = 2 * pairs.length := by
  induction pairs with
  | nil => rfl
  | cons p rest ih => simp [pairElems, ih]; omega

/-- **C2.** Header size-class selection: for every entry count `n`,
`output_map_header` writes exactly one byte (the fixed tag mask with `n` in
the low 4 bits) when `n ≤ 15`; exactly 3 bytes (tag then `n` as big-endian
u16) when `15 < n ≤ 65535`; exactly 5 bytes (tag then `n` as big-endian
u32) when `65535 < n ≤ 4294967295`; and fails with `TooBig` when
`n > 4294967295` — the error is returned before the sink closure is
invoked, so no bytes are written. -/
theorem output_map_header_size_classes (n : Nat) (st : MapSerializer) :
    (n ≤ 15 →
      st.output_map_header n = .ok (st.write [n ||| FIXMAP_MASK])) ∧
    (15 < n → n ≤ 65535 →
      st.output_map_header n = .ok (st.write [MAP16, n / 256, n % 256])) ∧
    (65535 < n → n ≤ 4294967295 →
      st.output_map_header n =
        .ok (st.write
          [MAP32, n / 16777216, n / 65536 % 256, n / 256 % 256, n % 256])) ∧
    (4294967295 < n →
      st.output_map_header n = .error (Error.simple .TooBig)) := by
  refine ⟨fun h1 => ?_, fun h1 h2 => ?_, fun h1 h2 => ?_, fun h1 => ?_⟩
  · rw [MapSerializer.output_map_header, if_pos (show n ≤ MAX_FIXMAP by
      simp only [MAX_FIXMAP]; omega)]
    have : n % 256 = n := by omega
    rw [this]
  · rw [MapSerializer.output_map_header,
        if_neg (show ¬ n ≤ MAX_FIXMAP by simp only [MAX_FIXMAP]; omega),
        if_pos (show n ≤ MAX_MAP16 by simp only [MAX_MAP16]; omega)]
    have e1 : n % 65536 / 256 = n / 256 := by omega
    have e2 : ([MAP16] ++ be16 n) = [MAP16, n / 256, n % 256] := by
      simp [be16, e1]
    rw [e2]
  · rw [MapSerializer.output_map_header,
        if_neg (show ¬ n ≤ MAX_FIXMAP by simp only [MAX_FIXMAP]; omega),
        if_neg (show ¬ n ≤ MAX_MAP16 by simp only [MAX_MAP16]; omega),
        if_pos (show n ≤ MAX_MAP32 by simp only [MAX_MAP32]; omega)]
    have e1 : n % 4294967296 / 16777216 = n / 16777216 := by omega
    have e2 : n % 16777216 / 65536 = n / 65536 % 256 := by omega
    have e3 : n % 65536 / 256 = n / 256 % 256 := by omega
    have e4 : ([MAP32] ++ be32 n) =
        [MAP32, n / 16777216, n / 65536 % 256, n / 256 % 256, n % 256] := by
      simp [be32, e1, e2, e3]
    rw [e4]
  · rw [MapSerializer.output_map_header,
        if_neg (show ¬ n ≤ MAX_FIXMAP by simp only [MAX_FIXMAP]; omega),
        if_neg (show ¬ n ≤ MAX_MAP16 by simp only [MAX_MAP16]; omega),
        if_neg (show ¬ n ≤ MAX_MAP32 by simp only [MAX_MAP32]; omega)]

/-- Witness for `output_map_header_size_classes`: all four size classes at
concrete counts. -/
theorem output_map_header_size_classes_witness :
    MapSerializer.new.output_map_header 3 =
      .ok (MapSerializer.new.write [3 ||| FIXMAP_MASK]) ∧
    MapSerializer.new.output_map_header 300 =
      .ok (MapSerializer.new.write [MAP16, 300 / 256, 300 % 256]) ∧
    MapSerializer.new.output_map_header 70000 =
      .ok (MapSerializer.new.write
        [MAP32, 70000 / 16777216, 70000 / 65536 % 256, 70000 / 256 % 256,
         70000 % 256]) ∧
    MapSerializer.new.output_map_header 4294967296 =
      .error (Error.simple .TooBig) :=
  ⟨(output_map_header_size_classes 3 MapSerializer.new).1 (by decide),
   (output_map_header_size_classes 300 MapSerializer.new).2.1 (by decide)
     (by decide),
   (output_map_header_size_classes 70000 MapSerializer.new).2.2.1 (by decide)
     (by decide),
   (output_map_header_size_classes 4294967296 MapSerializer.new).2.2.2
     (by norm_num)⟩

/-- **C3.** Known-vs-unknown-size equivalence: for every sequence of map
entries, encoding through the `MapSerializer` after a correct size hint
(`hint_size` with `Some(n)`, `n` the number of key/value pairs) and encoding
the same entries with no hint produce byte-identical output on the real sink
once `finish` completes successfully (which both runs do whenever the entry
count fits the largest header). -/
theorem known_unknown_hint_equivalence (pairs : List (List Nat × List Nat))
    (h : pairs.length ≤ MAX_MAP32) :
    ∃ out,
      runMapSerializer (some pairs.length) (pairElems pairs) = .ok out ∧
      runMapSerializer none (pairElems pairs) = .ok out := by
  obtain ⟨hdr, -, hhdr⟩ := output_map_header_ok pairs.length h
  refine ⟨hdr ++ (pairElems pairs).flatten, ?_, ?_⟩
  · have h1 : MapSerializer.new.hint_size (some pairs.length) =
        .ok { count := 0, size := some pairs.length, buffer := [],
              output := hdr } := by
      simpa [MapSerializer.hint_size, MapSerializer.new, MapSerializer.write]
        using hhdr { count := 0, size := some pairs.length, buffer := [],
                     output := [] }
    have h2 : (pairElems pairs).foldlM MapSerializer.serialize_element
        { count := 0, size := some pairs.length, buffer := [], output := hdr } =
        .ok { count := (pairElems pairs).length, size := some pairs.length,
              buffer := [], output := hdr ++ (pairElems pairs).flatten } := by
      simpa using foldlM_serialize_direct (pairElems pairs)
        { count := 0, size := some pairs.length, buffer := [], output := hdr }
        rfl
    have h3 : MapSerializer.finish
        { count := (pairElems pairs).length, size := some pairs.length,
          buffer := [], output := hdr ++ (pairElems pairs).flatten } =
        .ok { count := (pairElems pairs).length, size := some pairs.length,
              buffer := [], output := hdr ++ (pairElems pairs).flatten } := by
      have : pairs.length * 2 = (pairElems pairs).length := by
        rw [pairElems_length]; omega
      simp [MapSerializer.finish, MapSerializer.check_item_count_matches_size,
            this]
      rfl
    rw [runMapSerializer, h1, ok_bind, h2, ok_bind, h3, ok_bind]
  · have h1 : MapSerializer.new.hint_size none = .ok MapSerializer.new := rfl
    have h2 : (pairElems pairs).foldlM MapSerializer.serialize_element
        MapSerializer.new =
        .ok { count := (pairElems pairs).length, size := none,
              buffer := (pairElems pairs).flatten, output := [] } := by
      simpa [MapSerializer.new] using
        foldlM_serialize_buffered (pairElems pairs) MapSerializer.new rfl
    have hcount : (pairElems pairs).length / 2 = pairs.length := by
      rw [pairElems_length]; omega
    have h3 : MapSerializer.finish
        { count := (pairElems pairs).length, size := none,
          buffer := (pairElems pairs).flatten, output := [] } =
        .ok { count := (pairElems pairs).length, size := none,
              buffer := (pairElems pairs).flatten,
              output := hdr ++ (pairElems pairs).flatten } := by
      rw [MapSerializer.finish]
      have hg : MapSerializer.get_item_count
          { count := (pairElems pairs).length, size := none,
            buffer := (pairElems pairs).flatten, output := [] } =
          .ok pairs.length := by
        simp [MapSerializer.get_item_count, hcount, Nat.mod_one]
      rw [hg, ok_bind, hhdr, ok_bind]
      simp [MapSerializer.write]
    rw [runMapSerializer, h1, ok_bind, h2, ok_bind, h3, ok_bind]

/-- Witness for `known_unknown_hint_equivalence`: one concrete two-entry
map. -/
theorem known_unknown_hint_equivalence_witness :
    ([([1], [2]), ([3], [4])] : List (List Nat × List Nat)).length ≤
      MAX_MAP32 ∧
    ∃ out,
      runMapSerializer (some 2) (pairElems [([1], [2]), ([3], [4])]) =
        .ok out ∧
      runMapSerializer none (pairElems [([1], [2]), ([3], [4])]) = .ok out :=
  ⟨by decide, known_unknown_hint_equivalence [([1], [2]), ([3], [4])]
    (by decide)⟩

/-- **C4.** Known-size mode: `hint_size` with `Some(n)` emits the header to
the output immediately; every subsequent element write goes directly to the
output with no buffering; `finish` succeeds if and only if the element count
equals exactly `2 × n`, failing with `BadLength` otherwise — in particular a
hint of 3 with only 2 key/value pairs supplied fails with `BadLength`. -/
theorem known_size_mode_spec :
    (∀ n, n ≤ MAX_MAP32 →
      ∃ hdr, hdr ≠ [] ∧ MapSerializer.new.hint_size (some n) =
        .ok { count := 0, size := some n, buffer := [], output := hdr }) ∧
    (∀ (st : MapSerializer) (bytes : List Nat) n, st.size = some n →
      st.serialize_element bytes =
        .ok { st with count := st.count + 1, output := st.output ++ bytes }) ∧
    (∀ (st : MapSerializer) n, st.size = some n →
      (st.finish = .ok st ↔ st.count = 2 * n) ∧
      (st.count ≠ 2 * n → st.finish = .error (Error.simple .BadLength))) ∧
    runMapSerializer (some 3) [[1], [2], [3], [4]] =
      .error (Error.simple .BadLength) := by
  refine ⟨?_, ?_, ?_, ?_⟩
  · intro n hn
    obtain ⟨hdr, hne, hhdr⟩ := output_map_header_ok n hn
    exact ⟨hdr, hne, by
      simpa [MapSerializer.hint_size, MapSerializer.new, MapSerializer.write]
        using hhdr { count := 0, size := some n, buffer := [], output := [] }⟩
  · intro st bytes n hsz
    simp [MapSerializer.serialize_element, MapSerializer.should_serialize_directly,
          hsz, MapSerializer.write]
  · intro st n hsz
    constructor
    · constructor
      · intro hfin
        by_contra hne
        rw [finish_some st n hsz,
            show st.check_item_count_matches_size (n * 2) =
              .error (Error.simple .BadLength) from by
              simp [MapSerializer.check_item_count_matches_size]; omega,
            error_bind] at hfin
        exact absurd hfin (by simp)
      · intro hc
        rw [finish_some st n hsz,
            show st.check_item_count_matches_size (n * 2) = .ok () from by
              simp [MapSerializer.check_item_count_matches_size]; omega,
            ok_bind]
    · intro hne
      rw [finish_some st n hsz,
          show st.check_item_count_matches_size (n * 2) =
            .error (Error.simple .BadLength) from by
            simp [MapSerializer.check_item_count_matches_size]; omega,
          error_bind]
  · rfl

/-- Witness for `known_size_mode_spec`: the three universally quantified
parts at concrete inputs. -/
theorem known_size_mode_spec_witness :
    (∃ hdr, hdr ≠ [] ∧ MapSerializer.new.hint_size (some 1) =
      .ok { count := 0, size := some 1, buffer := [], output := hdr }) ∧
    ({ count := 0, size := some 1, buffer := [], output := [] } :
        MapSerializer).serialize_element [9] =
      .ok { count := 1, size := some 1, buffer := [], output := [9] } ∧
    (({ count := 2, size := some 1, buffer := [], output := [] } :
        MapSerializer).finish =
      .ok { count := 2, size := some 1, buffer := [], output := [] } ↔
        (2 : Nat) = 2 * 1) :=
  ⟨known_size_mode_spec.1 1 (by decide),
   known_size_mode_spec.2.1
     { count := 0, size := some 1, buffer := [], output := [] } [9] 1 rfl,
   (known_size_mode_spec.2.2.1
     { count := 2, size := some 1, buffer := [], output := [] } 1 rfl).1⟩

/-- **C5.** Unknown-size mode: with no size hint every element's bytes are
buffered and the real output is untouched before `finish`; `finish` computes
the entry count as `count / 2`, emits the header for it, and flushes the
buffer verbatim; and since `count % 1 ≠ 0` never holds, `get_item_count`
never fails with `BadLength` — an odd element count is not rejected and
yields `⌊count / 2⌋`. -/
theorem unknown_size_mode_spec :
    (∀ (st : MapSerializer) (bytes : List Nat), st.size = none →
      st.serialize_element bytes =
        .ok { st with count := st.count + 1,
                      buffer := st.buffer ++ bytes }) ∧
    (∀ st : MapSerializer, st.get_item_count = .ok (st.count / 2)) ∧
    (∀ st : MapSerializer, st.size = none → st.count / 2 ≤ MAX_MAP32 →
      ∃ st', st.output_map_header (st.count / 2) = .ok st' ∧
        st.finish = .ok (st'.write st'.buffer)) := by
  refine ⟨?_, ?_, ?_⟩
  · intro st bytes hsz
    simp [MapSerializer.serialize_element, MapSerializer.should_serialize_directly,
          hsz]
  · intro st
    simp [MapSerializer.get_item_count, Nat.mod_one]
  · intro st hsz hle
    obtain ⟨hdr, -, hhdr⟩ := output_map_header_ok (st.count / 2) hle
    refine ⟨st.write hdr, hhdr st, ?_⟩
    rw [finish_none st hsz,
        show st.get_item_count = .ok (st.count / 2) from by
          simp [MapSerializer.get_item_count, Nat.mod_one],
        ok_bind, hhdr st, ok_bind]

/-- Witness for `unknown_size_mode_spec`: a buffered element write, the
completion check at an odd count, and the flushing `finish`. -/
theorem unknown_size_mode_spec_witness :
    ({ count := 0, size := none, buffer := [], output := [] } :
        MapSerializer).serialize_element [7] =
      .ok { count := 1, size := none, buffer := [7], output := [] } ∧
    ({ count := 3, size := none, buffer := [7, 8, 9], output := [] } :
        MapSerializer).get_item_count = .ok 1 ∧
    (∃ st',
      ({ count := 2, size := none, buffer := [7, 8], output := [] } :
          MapSerializer).output_map_header 1 = .ok st' ∧
      ({ count := 2, size := none, buffer := [7, 8], output := [] } :
          MapSerializer).finish = .ok (st'.write st'.buffer)) :=
  ⟨unknown_size_mode_spec.1
     { count := 0, size := none, buffer := [], output := [] } [7] rfl,
   unknown_size_mode_spec.2.1
     { count := 3, size := none, buffer := [7, 8, 9], output := [] },
   unknown_size_mode_spec.2.2
     { count := 2, size := none, buffer := [7, 8], output := [] } rfl
     (by decide)⟩

/-- **C6.** `from_value` arity: when the value's serialization pushes a list
`l` of top-level items into the builder, `from_value` fails with `BadLength`
for zero items ("no items") and for more than one item ("more than one
item"), and returns the single pushed value exactly when there is one. -/
theorem from_value_arity (l : List Generic) :
    (l = [] →
      Generic.from_value (fun b => .ok (b ++ l)) =
        .error (Error.new .BadLength "Value serialized into no items")) ∧
    (1 < l.length →
      Generic.from_value (fun b => .ok (b ++ l)) =
        .error (Error.new .BadLength
          "Value serialized into more than one item")) ∧
    (∀ g, l = [g] →
      Generic.from_value (fun b => .ok (b ++ l)) = .ok g) := by
  refine ⟨fun h => ?_, fun h => ?_, fun g h => ?_⟩
  · subst h; rfl
  · match l, h with
    | a :: b :: rest, _ =>
        rw [Generic.from_value, ok_bind]
        have hx : ∃ x, (List.nil ++ a :: b :: rest).getLast? = some x := by
          rcases hx : (List.nil ++ a :: b :: rest).getLast? with _ | x
          · simp at hx
          · exact ⟨x, hx⟩
        obtain ⟨x, hx⟩ := hx
        rw [hx]
        have hd : ((List.nil ++ a :: b :: rest).dropLast).isEmpty = false := rfl
        simp [hd]
  · subst h; rfl

/-- Witness for `from_value_arity`: zero, two, and one pushed item. -/
theorem from_value_arity_witness :
    Generic.from_value (fun b => .ok (b ++ ([] : List Generic))) =
      .error (Error.new .BadLength "Value serialized into no items") ∧
    Generic.from_value (fun b => .ok (b ++ [Generic.nil, Generic.nil])) =
      .error (Error.new .BadLength
        "Value serialized into more than one item") ∧
    Generic.from_value (fun b => .ok (b ++ [Generic.gtrue])) =
      .ok Generic.gtrue :=
  ⟨(from_value_arity []).1 rfl,
   (from_value_arity [Generic.nil, Generic.nil]).2.1 (by decide),
   (from_value_arity [Generic.gtrue]).2.2 Generic.gtrue rfl⟩

/-- Folding the tuple-variant element step over single-push serializers
appends the elements in order. -/
theorem tuple_elts_fold (gs : List Generic) (variant : String)
    (acc : List Generic) :
    gs.foldlM (fun st g =>
        serialize_tuple_variant_elt st (fun b => .ok (b ++ [g])))
      (variant, acc) = .ok (variant, acc ++ gs) := by
  induction gs generalizing acc with
  | nil => simp; rfl
  | cons g rest ih =>
      rw [List.foldlM_cons,
          show serialize_tuple_variant_elt (variant, acc)
              (fun b => .ok (b ++ [g])) = .ok (variant, acc ++ [g]) from rfl,
          ok_bind, ih]
      simp

/-- Folding the struct-variant field step over single-push serializers
collects the field names into the key vector and the values into the value
vector, in order. -/
theorem struct_elts_fold (fields : List (String × Generic)) (variant : String)
    (ks vs : List Generic) :
    fields.foldlM (fun st f =>
        serialize_struct_variant_elt st f.1 (fun b => .ok (b ++ [f.2])))
      (variant, (ks, vs)) =
      .ok (variant, (ks ++ fields.map (fun f => Generic.str f.1),
                     vs ++ fields.map Prod.snd)) := by
  induction fields generalizing ks vs with
  | nil => simp; rfl
  | cons f rest ih =>
      rw [List.foldlM_cons,
          show serialize_struct_variant_elt (variant, (ks, vs)) f.1
              (fun b => .ok (b ++ [f.2])) =
            .ok (variant, (ks ++ [Generic.str f.1], vs ++ [f.2])) from rfl,
          ok_bind, ih]
      simp

/-- Zipping the key and value vectors of a struct-variant state recovers the
field list. -/
theorem zip_map_str_snd (fields : List (String × Generic)) :
    (fields.map (fun f => Generic.str f.1)).zip (fields.map Prod.snd) =
      fields.map (fun f => (Generic.str f.1, f.2)) := by
  induction fields with
  | nil => rfl
  | cons f rest ih => simp [ih]

/-- **C7.** Variant encode wire shapes: a unit variant pushes
`Str(variant name)`; a newtype variant pushes a single-entry map from the
variant name to the payload, failing with `BadLength` when the payload
serialized into a number of items other than one; a tuple variant pushes a
single-entry map from the variant name to the array of positional fields;
a struct variant pushes a single-entry map from the variant name to the map
of (field-name, field-value) pairs. -/
theorem variant_encode_shapes :
    (∀ (buf : List Generic) (name : String) (idx : Nat) (variant : String),
      serialize_unit_variant buf name idx variant =
        .ok (buf ++ [.str variant])) ∧
    (∀ (buf : List Generic) (name : String) (idx : Nat) (variant : String)
        (g : Generic),
      serialize_newtype_variant buf name idx variant
          (fun b => .ok (b ++ [g])) =
        .ok (buf ++ [.map [(.str variant, g)]])) ∧
    (∀ (buf : List Generic) (name : String) (idx : Nat) (variant : String)
        (l : List Generic), l.length ≠ 1 →
      ∃ msg, serialize_newtype_variant buf name idx variant
          (fun b => .ok (b ++ l)) = .error (Error.new .BadLength msg)) ∧
    (∀ (buf : List Generic) (name : String) (idx : Nat) (variant : String)
        (gs : List Generic),
      ∃ st,
        gs.foldlM (fun st g =>
            serialize_tuple_variant_elt st (fun b => .ok (b ++ [g])))
          (serialize_tuple_variant name idx variant gs.length) = .ok st ∧
        serialize_tuple_variant_end buf st =
          .ok (buf ++ [.map [(.str variant, .array gs)]])) ∧
    (∀ (buf : List Generic) (name : String) (idx : Nat) (variant : String)
        (fields : List (String × Generic)),
      ∃ st,
        fields.foldlM (fun st f =>
            serialize_struct_variant_elt st f.1 (fun b => .ok (b ++ [f.2])))
          (serialize_struct_variant name idx variant fields.length) =
            .ok st ∧
        serialize_struct_variant_end buf st =
          .ok (buf ++ [.map [(.str variant,
            .map (fields.map (fun f => (Generic.str f.1, f.2))))]])) := by
  refine ⟨fun _ _ _ _ => rfl, fun buf name idx variant g => ?_,
          fun buf name idx variant l hl => ?_,
          fun buf name idx variant gs => ?_,
          fun buf name idx variant fields => ?_⟩
  · rfl
  · match l, hl with
    | [], _ => exact ⟨_, rfl⟩
    | a :: b :: rest, _ => exact ⟨_, rfl⟩
  · refine ⟨(variant, gs), ?_, rfl⟩
    simpa [serialize_tuple_variant] using tuple_elts_fold gs variant []
  · refine ⟨(variant, (fields.map (fun f => Generic.str f.1),
                       fields.map Prod.snd)), ?_, ?_⟩
    · simpa [serialize_struct_variant] using struct_elts_fold fields variant [] []
    · rw [serialize_struct_variant_end]
      simp [zip_map_str_snd]

/-- Witness for `variant_encode_shapes`: the four wire shapes at concrete
inputs, plus the newtype arity failure. -/
theorem variant_encode_shapes_witness :
    serialize_unit_variant [] "T" 1 "B" = .ok [.str "B"] ∧
    serialize_newtype_variant [] "T" 0 "A" (fun b => .ok (b ++ [.uint 42])) =
      .ok [.map [(.str "A", .uint 42)]] ∧
    (∃ msg, serialize_newtype_variant [] "T" 0 "A" (fun b => .ok (b ++ [])) =
      .error (Error.new .BadLength msg)) ∧
    (∃ st,
      ([Generic.int (-3), Generic.int 22].foldlM (fun st g =>
          serialize_tuple_variant_elt st (fun b => .ok (b ++ [g])))
        (serialize_tuple_variant "T" 2 "C" 2) = .ok st ∧
      serialize_tuple_variant_end [] st =
        .ok [.map [(.str "C", .array [.int (-3), .int 22])]])) ∧
    (∃ st,
      ([("a", Generic.int 9001)].foldlM (fun st f =>
          serialize_struct_variant_elt st f.1 (fun b => .ok (b ++ [f.2])))
        (serialize_struct_variant "T" 3 "D" 1) = .ok st ∧
      serialize_struct_variant_end [] st =
        .ok [.map [(.str "D", .map [(.str "a", .int 9001)])]])) :=
  ⟨variant_encode_shapes.1 [] "T" 1 "B",
   variant_encode_shapes.2.1 [] "T" 0 "A" (.uint 42),
   variant_encode_shapes.2.2.1 [] "T" 0 "A" [] (by decide),
   variant_encode_shapes.2.2.2.1 [] "T" 2 "C" [.int (-3), .int 22],
   variant_encode_shapes.2.2.2.2 [] "T" 3 "D" [("a", .int 9001)]⟩

/-- **C8.** Variant decode shape dispatch: a `Str` source is handed directly
to the discriminant deserializer with no structure unpacked; a single-entry
`Map` has its entry's key decoded as the discriminant; a `Map` of any other
length fails with the invalid-length (`BadLength`) error; every other
variant (e.g. `Array`, `Int`, `Nil`) fails with `InvalidType`. -/
theorem visit_variant_dispatch {V : Type} (dV : Generic → Except Error V) :
    (∀ (s : String) (v : V), dV (.str s) = .ok v →
      visit_variant (.str s) dV = .ok v) ∧
    (∀ (k val : Generic) (v : V), dV k = .ok v →
      visit_variant (.map [(k, val)]) dV = .ok v) ∧
    (∀ m : List (Generic × Generic), m.length ≠ 1 →
      visit_variant (.map m) dV = .error (Error.invalid_length m.length)) ∧
    (∀ parent : Generic, parent.is_str = false → parent.is_map = false →
      visit_variant parent dV = .error Error.invalid_type) := by
  refine ⟨fun s v h => ?_, fun k val v h => ?_, fun m hm => ?_,
          fun parent h1 h2 => ?_⟩
  · simp [visit_variant, Generic.is_str, chainVariantErr, h]
  · simp [visit_variant, Generic.is_str, chainVariantErr, h]
  · match m, hm with
    | [], _ => rfl
    | a :: b :: rest, _ => rfl
  · cases parent <;> simp_all [visit_variant, Generic.is_str, Generic.is_map]

/-- Witness for `visit_variant_dispatch`: the identity deserializer over
concrete sources of each shape. -/
theorem visit_variant_dispatch_witness :
    visit_variant (.str "B") (fun g => .ok g) = .ok (.str "B") ∧
    visit_variant (.map [(.str "A", .uint 42)]) (fun g => .ok g) =
      .ok (.str "A") ∧
    visit_variant (V := Generic) (.map [(.nil, .nil), (.nil, .nil)])
        (fun g => .ok g) = .error (Error.invalid_length 2) ∧
    visit_variant (V := Generic) (.array []) (fun g => .ok g) =
      .error Error.invalid_type :=
  ⟨(visit_variant_dispatch (fun g => .ok g)).1 "B" (.str "B") rfl,
   (visit_variant_dispatch (fun g => .ok g)).2.1 (.str "A") (.uint 42)
     (.str "A") rfl,
   (visit_variant_dispatch (fun g => .ok g)).2.2.1 [(.nil, .nil), (.nil, .nil)]
     (by decide),
   (visit_variant_dispatch (fun g => .ok g)).2.2.2 (.array []) rfl rfl⟩

/-- **C9 counterexample.** The claim pairs the error kinds the wrong way
round: decoding an enum from a two-entry map yields `BadLength` (the
`invalid_length` branch), not `InvalidType`; decoding from an array yields
`InvalidType` (the catch-all branch), not `BadLength`. -/
theorem variant_shape_rejection_counterexample :
    visit_variant (V := Generic) (.map [(.nil, .nil), (.nil, .nil)])
        (fun g => .ok g) = .error (Error.simple .BadLength) ∧
    visit_variant (V := Generic) (.array [.nil]) (fun g => .ok g) =
      .error (Error.simple .InvalidType) ∧
    Error.simple .BadLength ≠ Error.simple .InvalidType := by
  refine ⟨rfl, rfl, fun h => ?_⟩
  simp [Error.simple] at h

/-- **C9 (amended).** Decoding an enum from a `Generic` map with more than
one entry fails with `BadLength`, from a `Generic` array with `InvalidType`;
in both cases the result is an error, so no partial typed value is
returned. -/
theorem variant_shape_rejection {V : Type} (dV : Generic → Except Error V) :
    (∀ m : List (Generic × Generic), 1 < m.length →
      visit_variant (.map m) dV = .error (Error.simple .BadLength)) ∧
    (∀ items : List Generic,
      visit_variant (.array items) dV = .error (Error.simple .InvalidType)) := by
  refine ⟨fun m hm => ?_, fun items => rfl⟩
  match m, hm with
  | a :: b :: rest, _ => rfl

/-- Witness for `variant_shape_rejection`. -/
theorem variant_shape_rejection_witness :
    visit_variant (V := Generic) (.map [(.nil, .nil), (.nil, .nil)])
        (fun g => .ok g) = .error (Error.simple .BadLength) ∧
    visit_variant (V := Generic) (.array [.nil]) (fun g => .ok g) =
      .error (Error.simple .InvalidType) :=
  ⟨(variant_shape_rejection (fun g => .ok g)).1 [(.nil, .nil), (.nil, .nil)]
     (by decide),
   (variant_shape_rejection (fun g => .ok g)).2 [.nil]⟩

/-!
## The `Generic` identity round trip
-/

/-- Sequence serialization appends the items, given that each item
serializes to exactly itself. -/
theorem gserSeq_spec (l : List Generic)
    (H : ∀ g ∈ l, ∀ buf, GSer g buf = .ok (buf ++ [g])) :
    ∀ st, GSerSeq l st = .ok (st ++ l) := by
  induction l with
  | nil => intro st; rw [GSerSeq]; simp
  | cons g rest ih =>
      intro st
      rw [GSerSeq, H g (by simp) st, ok_bind,
          ih (fun g' hg' => H g' (by simp [hg'])) (st ++ [g])]
      simp

/-- Map-entry serialization appends the keys to the key vector and the
values to the value vector, given that each component serializes to exactly
itself. -/
theorem gserEntries_spec (l : List (Generic × Generic))
    (H : ∀ p ∈ l, (∀ buf, GSer p.1 buf = .ok (buf ++ [p.1])) ∧
                  (∀ buf, GSer p.2 buf = .ok (buf ++ [p.2]))) :
    ∀ ks vs, GSerEntries l (ks, vs) =
      .ok (ks ++ l.map Prod.fst, vs ++ l.map Prod.snd) := by
  induction l with
  | nil => intro ks vs; rw [GSerEntries]; simp
  | cons p rest ih =>
      intro ks vs
      obtain ⟨k, v⟩ := p
      rw [GSerEntries, (H (k, v) (by simp)).1 ks, ok_bind,
          (H (k, v) (by simp)).2 vs, ok_bind,
          ih (fun p' hp' => H p' (by simp [hp'])) (ks ++ [k]) (vs ++ [v])]
      simp

/-- Zipping the separately collected first and second components recovers
the pair list. -/
theorem zip_map_fst_snd (l : List (Generic × Generic)) :
    (l.map Prod.fst).zip (l.map Prod.snd) = l := by
  induction l with
  | nil => rfl
  | cons p rest ih => simp [ih]

/-- Serializing any `Generic` into the builder pushes exactly that value. -/
theorem gser_ok (g : Generic) : ∀ buf, GSer g buf = .ok (buf ++ [g]) := by
  have main : ∀ (n : Nat) (g : Generic), sizeOf g ≤ n →
      ∀ buf, GSer g buf = .ok (buf ++ [g]) := by
    intro n
    induction n with
    | zero =>
        intro g hg
        cases g <;> simp_all
    | succ n ih =>
        intro g hg buf
        match g with
        | .nil => rw [GSer]; rfl
        | .gfalse => rw [GSer]; rfl
        | .gtrue => rw [GSer]; rfl
        | .int i => rw [GSer]; rfl
        | .uint u => rw [GSer]; rfl
        | .f32 bits => rw [GSer]; rfl
        | .f64 bits => rw [GSer]; rfl
        | .bin b => rw [GSer]; rfl
        | .str s => rw [GSer]; rfl
        | .array items =>
            have hsz : sizeOf items ≤ n := by
              have hsa : sizeOf (Generic.array items) = 1 + sizeOf items := by
                simp
              omega
            have hitems : ∀ g' ∈ items, ∀ b, GSer g' b = .ok (b ++ [g']) := by
              intro g' hg' b
              have hlt : sizeOf g' < sizeOf items := List.sizeOf_lt_of_mem hg'
              exact ih g' (by omega) b
            rw [GSer, gserSeq_spec items hitems [], ok_bind]
            simp
        | .map entries =>
            have hsz : sizeOf entries ≤ n := by
              have hsm : sizeOf (Generic.map entries) = 1 + sizeOf entries := by
                simp
              omega
            have hents : ∀ p ∈ entries,
                (∀ b, GSer p.1 b = .ok (b ++ [p.1])) ∧
                (∀ b, GSer p.2 b = .ok (b ++ [p.2])) := by
              intro p hp
              have hlt : sizeOf p < sizeOf entries := List.sizeOf_lt_of_mem hp
              obtain ⟨k, v⟩ := p
              have hsp : sizeOf ((k, v) : Generic × Generic) =
                  1 + sizeOf k + sizeOf v := by simp
              exact ⟨fun b => ih k (by omega) b,
                     fun b => ih v (by omega) b⟩
            rw [GSer, gserEntries_spec entries hents [] [], ok_bind]
            simp [zip_map_fst_snd]
  exact main (sizeOf g) g (Nat.le_refl _)

/-- **C10.** `Generic` identity round trip: for every `Generic` value `g`,
`Generic::from_value(g)` succeeds and returns a value structurally identical
to `g` — in particular `Int` and `UInt` stay distinct variants, and map
entry order and duplicate keys are preserved exactly, since the result is
`g` itself. -/
theorem generic_from_value_id (g : Generic) : fromValueGeneric g = .ok g := by
  rw [fromValueGeneric, Generic.from_value, gser_ok g [], ok_bind]
  rfl

/-- **C1.** Round-trip law: for every typed value `v` of the model type `T`
(with the ranges its Rust field types carry), decoding the `Generic`
produced by `Generic::from_value(v)` yields `v` — covering a unit variant, a
newtype variant with payload 42, a tuple variant with fields (-3, 22), and a
struct variant with field `a = 9001` as instances. -/
theorem t_round_trip (t : T) (h : T.wf t) : TRoundTrip t = .ok t := by
  match t with
  | .B => rfl
  | .D a => rfl
  | .A x =>
      have hx : x % 2 ^ 64 = x := Nat.mod_eq_of_lt h
      have : TRoundTrip (T.A x) = .ok (T.A (x % 2 ^ 64)) := rfl
      rw [this, hx]
  | .C a b =>
      have h1 : deserializeI8 (.int a) = .ok a := by
        rw [show deserializeI8 (.int a) =
              if -128 ≤ a ∧ a ≤ 127 then .ok a else .error Error.invalid_type
            from rfl,
            if_pos h.1]
      have h2 : deserializeI8 (.int b) = .ok b := by
        rw [show deserializeI8 (.int b) =
              if -128 ≤ b ∧ b ≤ 127 then .ok b else .error Error.invalid_type
            from rfl,
            if_pos h.2]
      have he : TRoundTrip (T.C a b) =
          TDe (.map [(.str "C", .array [.int a, .int b])]) := rfl
      have h3 : TDe (.map [(.str "C", .array [.int a, .int b])]) =
          (deserializeCPayload (.array [.int a, .int b]) >>= fun p =>
            .ok (T.C p.1 p.2)) := rfl
      have h4 : deserializeCPayload (.array [.int a, .int b]) =
          (deserializeI8 (.int a) >>= fun x =>
            deserializeI8 (.int b) >>= fun y => .ok (x, y)) := rfl
      rw [he, h3, h4, h1, ok_bind, h2, ok_bind, ok_bind]

/-- Witness for `t_round_trip`: the four concrete round trips named in the
spec — `T::B`, `T::A(42)`, `T::C(-3, 22)`, `T::D { a: 9001 }`. -/
theorem t_round_trip_witness :
    (T.wf T.B ∧ TRoundTrip T.B = .ok T.B) ∧
    (T.wf (T.A 42) ∧ TRoundTrip (T.A 42) = .ok (T.A 42)) ∧
    (T.wf (T.C (-3) 22) ∧ TRoundTrip (T.C (-3) 22) = .ok (T.C (-3) 22)) ∧
    (T.wf (T.D 9001) ∧ TRoundTrip (T.D 9001) = .ok (T.D 9001)) :=
  ⟨⟨by decide, t_round_trip T.B (by decide)⟩,
   ⟨by decide, t_round_trip (T.A 42) (by decide)⟩,
   ⟨by decide, t_round_trip (T.C (-3) 22) (by decide)⟩,
   ⟨by decide, t_round_trip (T.D 9001) (by decide)⟩⟩
